import Mathlib

/-!
Shallow embedding of two GitHub Actions automation scripts:

* `bot-pr-missing-linked-issue.js` — posts a reminder comment on pull
  requests whose body lacks a closing-keyword issue reference;
* the unassign bot (`part_000`) — lets a current assignee self-unassign
  an open issue by commenting `/unassign`.

Both scripts are modelled as pure functions from an explicit "world"
(the event payload, environment variables and the responses the REST
API would give to each call) to a record of the API calls attempted,
the log lines emitted, and the final outcome (normal return or a
rethrown error).  JavaScript falsiness on the optional fields is made
explicit, and the two regular expressions are implemented directly as
scanning functions over the character list of the subject string.
-/

namespace Bots

/-! ### JavaScript-style helpers -/

/-- Truthiness of an optional numeric field: `undefined`/`NaN` (modelled
as `none`) and `0` are falsy. -/
def jsFalsyNum (o : Option Nat) : Bool :=
  match o with
  | none => true
  | some n => n == 0

/-- Truthiness of an optional string field: `undefined`/`null` and the
empty string are falsy. -/
def jsFalsyStr (o : Option String) : Bool :=
  match o with
  | none => true
  | some s => s.isEmpty

/-- JavaScript `a || b` on numbers: `a` when truthy, otherwise `b`. -/
def jsOrNum (a b : Option Nat) : Option Nat :=
  match a with
  | none => b
  | some n => if n == 0 then b else some n

/-- JavaScript `s || ""` on an optional string field. -/
def jsOrEmptyStr (o : Option String) : String :=
  match o with
  | none => ""
  | some s => if s.isEmpty then "" else s

/-- Does `needle` occur at the head of `hay`? -/
def firstMatches : List Char → List Char → Bool
  | [], _ => true
  | _ :: _, [] => false
  | a :: as, b :: bs => a == b && firstMatches as bs

/-- Does `needle` occur anywhere inside `hay`? -/
def hasSub (needle hay : List Char) : Bool :=
  match hay with
  | [] => needle.isEmpty
  | c :: t => firstMatches needle (c :: t) || hasSub needle t

/-- JavaScript `s.includes(sub)`. -/
def strIncludes (s sub : String) : Bool :=
  hasSub sub.toList s.toList

/-- JavaScript `s.endsWith(suffix)`. -/
def strEndsWith (s tail : String) : Bool :=
  firstMatches tail.toList.reverse s.toList.reverse

/-- JavaScript `body?.includes(needle)` on an optional comment body:
`undefined` is falsy. -/
def jsIncludesOpt (body : Option String) (needle : String) : Bool :=
  match body with
  | none => false
  | some s => strIncludes s needle

/-! ### Character classes of the JavaScript regexes -/

/-- The regex word class `\w` = `[A-Za-z0-9_]`. -/
def isWordChar (c : Char) : Bool :=
  (97 ≤ c.toNat && c.toNat ≤ 122) ||
  (65 ≤ c.toNat && c.toNat ≤ 90) ||
  (48 ≤ c.toNat && c.toNat ≤ 57) ||
  c == '_'

/-- The regex whitespace class `\s` (space, tab, line terminators, and
the Unicode space separators JavaScript includes). -/
def jsSpace (c : Char) : Bool :=
  let n := c.toNat
  n == 32 || n == 9 || n == 10 || n == 13 || n == 11 || n == 12 ||
  n == 160 || n == 0x1680 || (0x2000 ≤ n && n ≤ 0x200A) ||
  n == 0x2028 || n == 0x2029 || n == 0x202F || n == 0x205F ||
  n == 0x3000 || n == 0xFEFF

/-- Case-insensitive literal match: consume `pat` (stored lowercase)
from the front of `cs`, returning the remainder on success. -/
def matchCI : List Char → List Char → Option (List Char)
  | [], cs => some cs
  | _ :: _, [] => none
  | p :: ps, c :: cs => if c.toLower == p then matchCI ps cs else none

/-- The alternation `(Fixes|Closes|Resolves)` under the `i` flag. -/
def matchKw (cs : List Char) : Option (List Char) :=
  match matchCI ("fixes".toList) cs with
  | some r => some r
  | none =>
    match matchCI ("closes".toList) cs with
    | some r => some r
    | none => matchCI ("resolves".toList) cs

/-- Attempt, at the current position, the body of
`/\b(Fixes|Closes|Resolves)\s*:?\s*(#\d+)(\s*,\s*#\d+)* /i` after the
word boundary: keyword, optional spaces, optional colon, optional
spaces, then `#` and at least one digit (the trailing group matches the
empty string, so it is irrelevant to `test`). -/
def linkMatchAt (cs : List Char) : Bool :=
  match matchKw cs with
  | none => false
  | some rest =>
    let r1 := rest.dropWhile jsSpace
    let r2 :=
      match r1 with
      | ':' :: t => t.dropWhile jsSpace
      | _ => r1
    match r2 with
    | '#' :: d :: _ => d.isDigit
    | _ => false

/-- `\b` before a word character: start of string, or the previous
character is not a word character. -/
def notWordBefore (prev : Option Char) : Bool :=
  match prev with
  | none => true
  | some p => ! isWordChar p

/-- `(^|\s)`: start of string, or the previous character is whitespace. -/
def spaceBefore (prev : Option Char) : Bool :=
  match prev with
  | none => true
  | some p => jsSpace p

/-- Scan for a match of the closing-keyword regex, tracking the
previous character for the `\b` check. -/
def linkScan (prev : Option Char) : List Char → Bool
  | [] => false
  | c :: rest =>
    (notWordBefore prev && linkMatchAt (c :: rest)) || linkScan (some c) rest

/-- `regex.test(body)` for
`/\b(Fixes|Closes|Resolves)\s*:?\s*(#\d+)(\s*,\s*#\d+)* /i`. -/
def linkRegexTest (s : String) : Bool :=
  linkScan none s.toList

/-- Attempt, at the current position, `\/unassign(\s|$)` (the `/i` flag
only matters on the letters). -/
def unassignMatchAt (cs : List Char) : Bool :=
  match matchCI ("/unassign".toList) cs with
  | none => false
  | some rest =>
    match rest with
    | [] => true
    | c :: _ => jsSpace c

/-- Scan for a match of `/(^|\s)\/unassign(\s|$)/i`, tracking the
previous character for the `(^|\s)` check. -/
def unassignScan (prev : Option Char) : List Char → Bool
  | [] => false
  | c :: rest =>
    (spaceBefore prev && unassignMatchAt (c :: rest)) || unassignScan (some c) rest

/-- `/(^|\s)\/unassign(\s|$)/i.test(body)`. -/
def unassignRegexTest (s : String) : Bool :=
  unassignScan none s.toList

/-! ### Data model -/

/-- A GitHub account as the scripts see it (`user.login`, `user.type`);
either field may be absent from a payload. -/
structure User where
  login : Option String
  type : Option String
deriving DecidableEq, Inhabited

/-- `context.repo`. -/
structure Repo where
  owner : String
  repo : String
deriving DecidableEq, Inhabited

/-- Pull-request data (`pull_request` payload or `pulls.get` response):
the fields the notifier reads. -/
structure PRData where
  number : Option Nat
  user : Option User
  body : Option String
deriving DecidableEq, Inhabited

/-- A comment in a thread, as returned by `issues.listComments`; the
scripts only read its `body`. -/
structure Comment where
  body : Option String
deriving DecidableEq, Inhabited

/-- The triggering comment of an `issue_comment` event. -/
structure IssueComment where
  body : Option String
  user : Option User
deriving DecidableEq, Inhabited

/-- The issue of an `issue_comment` event.  `pull_request` models the
truthiness of the payload's `pull_request` key (present exactly when
the "issue" is really a pull request). -/
structure Issue where
  number : Option Nat
  pull_request : Bool
  state : Option String
  assignees : Option (List User)
deriving DecidableEq, Inhabited

/-! ### Missing-Issue-Link Notifier (`bot-pr-missing-linked-issue.js`) -/

/-- `const LINKBOT_MARKER = '<!-- LinkBot Missing Issue -->'`. -/
def LINKBOT_MARKER : String := "<!-- LinkBot Missing Issue -->"

/-- An API call the notifier can attempt. -/
inductive NAction where
  | pullsGet (repo : Repo) (pullNumber : Nat)
  | listComments (repo : Repo) (issueNumber : Nat)
  | createComment (repo : Repo) (issueNumber : Nat) (body : String)
deriving DecidableEq, Inhabited

/-- Is an API call of the notifier mutating?  Only `createComment` is. -/
def isMutationN (a : NAction) : Bool :=
  match a with
  | NAction.createComment _ _ _ => true
  | _ => false

/-- The console output of the notifier, keeping the data each line
interpolates. -/
inductive NLog where
  | processing (prNumber : Nat) (dryRun : Bool)
  | skipBot (login : Option String)
  | alreadyCommented
  | dryRunWouldPost (body : String)
  | posted
  | linkedIssue
  | errorCtx (message : String) (prNumber : Option Nat) (repo : Repo)
deriving DecidableEq, Inhabited

/-- Result of one notifier invocation: the API calls attempted in
order, the log lines, and normal return versus rethrown error. -/
structure NOut where
  calls : List NAction
  logs : List NLog
  result : Except String Unit
deriving Inhabited

/-- The world one notifier invocation runs in: environment variables,
the event payload, and the responses the API would give. -/
structure NotifierWorld where
  dryRunEnv : Option String
  /-- `Number(process.env.PR_NUMBER)`: `none` models an unset variable
  or a non-numeric value (NaN). -/
  envPrNumber : Option Nat
  payloadPullRequest : Option PRData
  repo : Repo
  pullsGet : Except String PRData
  listComments : Except String (List Comment)
  createComment : Except String Unit

/-- `Number(process.env.PR_NUMBER) || context.payload.pull_request?.number`. -/
def prNumberOptOf (w : NotifierWorld) : Option Nat :=
  jsOrNum w.envPrNumber (w.payloadPullRequest.bind PRData.number)

/-- The PR data the notifier operates on: the payload's
`pull_request` when present, otherwise the `pulls.get` response. -/
def prDataOf (w : NotifierWorld) : Except String PRData :=
  match w.payloadPullRequest with
  | some pd => Except.ok pd
  | none => w.pullsGet

/-- `authorType === "Bot" || authorLogin?.endsWith('[bot]')`. -/
def notifierIsBot (pd : PRData) : Bool :=
  ((pd.user.bind User.type) == some "Bot") ||
  (match pd.user.bind User.login with
   | some l => strEndsWith l "[bot]"
   | none => false)

/-- `comment.body?.includes(LINKBOT_MARKER)`. -/
def hasLinkbotMarker (c : Comment) : Bool :=
  jsIncludesOpt c.body LINKBOT_MARKER

/-- The templated reminder after the marker: greeting, explanation,
linking instructions and the two documentation links, with the array
elements of the source joined by newlines. -/
def linkbotCommentRest (safeAuthor owner repo : String) : String :=
  "Hi @" ++ safeAuthor ++ ", this is **LinkBot** 👋\n\n" ++
  "Linking pull requests to issues helps us significantly with reviewing pull requests and keeping the repository healthy.\n\n" ++
  "🚨 **This pull request does not have an issue linked.**\n\n" ++
  "Please link an issue using the following format:\n- Fixes #123\n\n" ++
  "📖 Guide:\n[docs/sdk_developers/how_to_link_issues.md](https://github.com/" ++
  owner ++ "/" ++ repo ++
  "/blob/main/docs/sdk_developers/how_to_link_issues.md)\n\n" ++
  "If no issue exists yet, please create one:\n[docs/sdk_developers/creating_issues.md](https://github.com/" ++
  owner ++ "/" ++ repo ++
  "/blob/main/docs/sdk_developers/creating_issues.md)\n\nThanks!"

/-- The full reminder body: the marker directly concatenated with the
first line, then the rest of the template. -/
def linkbotCommentBody (safeAuthor owner repo : String) : String :=
  LINKBOT_MARKER ++ linkbotCommentRest safeAuthor owner repo

/-- The notifier from the author check on (after the PR data has been
resolved); `calls0`/`logs0` carry the calls and logs already made. -/
def runNotifierWithPR (w : NotifierWorld) (isDryRun : Bool) (prNumber : Nat)
    (logs0 : List NLog) (calls0 : List NAction) (prData : PRData) : NOut :=
  let authorLogin := prData.user.bind User.login
  if notifierIsBot prData then
    { calls := calls0
      logs := logs0 ++ [NLog.skipBot authorLogin]
      result := Except.ok () }
  else
    let body := jsOrEmptyStr prData.body
    match w.listComments with
    | Except.error e =>
      { calls := calls0 ++ [NAction.listComments w.repo prNumber]
        logs := logs0 ++ [NLog.errorCtx e (some prNumber) w.repo]
        result := Except.error e }
    | Except.ok comments =>
      let alreadyCommented := comments.any hasLinkbotMarker
      if alreadyCommented then
        { calls := calls0 ++ [NAction.listComments w.repo prNumber]
          logs := logs0 ++ [NLog.alreadyCommented]
          result := Except.ok () }
      else if ! linkRegexTest body then
        let safeAuthor := authorLogin.getD "there"
        let commentBody := linkbotCommentBody safeAuthor w.repo.owner w.repo.repo
        if isDryRun then
          { calls := calls0 ++ [NAction.listComments w.repo prNumber]
            logs := logs0 ++ [NLog.dryRunWouldPost commentBody]
            result := Except.ok () }
        else
          match w.createComment with
          | Except.error e =>
            { calls := calls0 ++
                [NAction.listComments w.repo prNumber,
                 NAction.createComment w.repo prNumber commentBody]
              logs := logs0 ++ [NLog.errorCtx e (some prNumber) w.repo]
              result := Except.error e }
          | Except.ok _ =>
            { calls := calls0 ++
                [NAction.listComments w.repo prNumber,
                 NAction.createComment w.repo prNumber commentBody]
              logs := logs0 ++ [NLog.posted]
              result := Except.ok () }
      else
        { calls := calls0 ++ [NAction.listComments w.repo prNumber]
          logs := logs0 ++ [NLog.linkedIssue]
          result := Except.ok () }

/-- One invocation of the notifier.  The `throw` on an undetermined PR
number and every API error reach the `catch`, which logs the error
context (PR number and repository) and rethrows. -/
def runNotifier (w : NotifierWorld) : NOut :=
  let isDryRun := w.dryRunEnv == some "true"
  let prNumberOpt := prNumberOptOf w
  if jsFalsyNum prNumberOpt then
    { calls := []
      logs := [NLog.errorCtx "PR number could not be determined" prNumberOpt w.repo]
      result := Except.error "PR number could not be determined" }
  else
    let prNumber := prNumberOpt.getD 0
    let logs0 := [NLog.processing prNumber isDryRun]
    match w.payloadPullRequest with
    | some pd => runNotifierWithPR w isDryRun prNumber logs0 [] pd
    | none =>
      match w.pullsGet with
      | Except.error e =>
        { calls := [NAction.pullsGet w.repo prNumber]
          logs := logs0 ++ [NLog.errorCtx e (some prNumber) w.repo]
          result := Except.error e }
      | Except.ok pd =>
        runNotifierWithPR w isDryRun prNumber logs0
          [NAction.pullsGet w.repo prNumber] pd

/-! ### Self-Unassign Handler (unassign bot) -/

/-- `isValidUnassignContext(issue, comment)`: the guard chain of early
`return false`s, written as one conditional chain.  Short-circuiting
makes the `issue.pull_request` access safe in the source; here the
optional accesses are explicit. -/
def isValidUnassignContext (issue : Option Issue) (comment : Option IssueComment) : Bool :=
  if jsFalsyNum (issue.bind Issue.number) || (issue.map Issue.pull_request).getD false then
    false
  else if jsFalsyStr (comment.bind IssueComment.body) ||
      jsFalsyStr ((comment.bind IssueComment.user).bind User.login) then
    false
  else if ((comment.bind IssueComment.user).bind User.type) == some "Bot" then
    false
  else if ! ((issue.bind Issue.state) == some "open") then
    false
  else
    true

/-- `commentRequestsUnassign(body)`: `typeof body === 'string'` and the
standalone-token regex test. -/
def commentRequestsUnassign (body : Option String) : Bool :=
  match body with
  | none => false
  | some s => unassignRegexTest s

/-- `buildUnassignMarker(username)`. -/
def buildUnassignMarker (username : String) : String :=
  "<!-- unassign-requested:" ++ username ++ " -->"

/-- `isCurrentAssignee(issue, username)`:
`issue.assignees?.some(a => a.login === username)`, with an absent
`assignees` list falsy. -/
def isCurrentAssignee (issue : Issue) (username : String) : Bool :=
  match issue.assignees with
  | none => false
  | some as => as.any fun a => a.login == some username

/-- Does a thread comment contain the per-user unassign marker? -/
def hasUnassignMarker (username : String) (c : Comment) : Bool :=
  jsIncludesOpt c.body (buildUnassignMarker username)

/-- The human-readable confirmation appended after the marker. -/
def unassignConfirmation (username : String) : String :=
  "✅ **@" ++ username ++ ", you’ve been unassigned from this issue.**\n\n" ++
  "Thanks for letting us know! If you’d like to work on something else, " ++
  "feel free to browse our open issues."

/-- The body of the confirmation comment: the hidden marker, then the
acknowledgement. -/
def unassignCommentBody (username : String) : String :=
  buildUnassignMarker username ++ ("\n\n" ++ unassignConfirmation username)

/-- An API call the unassign handler can attempt. -/
inductive UAction where
  | listComments (repo : Repo) (issueNumber : Nat)
  | removeAssignees (repo : Repo) (issueNumber : Nat) (assignees : List String)
  | createComment (repo : Repo) (issueNumber : Nat) (body : String)
deriving DecidableEq, Inhabited

/-- Is an API call of the unassign handler mutating?  `listComments`
is a read; the other two mutate. -/
def isMutationU (a : UAction) : Bool :=
  match a with
  | UAction.listComments _ _ => false
  | _ => true

/-- The console output of the unassign handler. -/
inductive ULog where
  | snapshot (issueNumber : Option Nat) (commenter : Option String)
      (commenterType : Option String) (commentBody : Option String)
  | exitInvalid
  | exitNoCommand
  | commandDetected (username : String)
  | exitNotAssignee (username : String)
  | exitAlready (username : String) (issueNumber : Nat)
  | proceeding (username : String) (issueNumber : Nat)
  | completed (username : String) (issueNumber : Nat)
  | errorCtx (message : String) (issueNumber : Option Nat) (commenter : Option String)
deriving DecidableEq, Inhabited

/-- Result of one unassign-handler invocation. -/
structure UOut where
  calls : List UAction
  logs : List ULog
  result : Except String Unit
deriving Inhabited

/-- The world one unassign-handler invocation runs in: the
`issue_comment` payload and the responses the API would give. -/
structure UnassignWorld where
  issue : Option Issue
  comment : Option IssueComment
  repo : Repo
  /-- The full paginated `issues.listComments` history. -/
  listComments : Except String (List Comment)
  removeAssignees : Except String Unit
  createComment : Except String Unit

/-- One invocation of the unassign handler.  Field accesses such as
`comment.user.login` happen in the source only after
`isValidUnassignContext` has guaranteed their presence; the `getD`
defaults are therefore never the value actually used. -/
def runUnassign (w : UnassignWorld) : UOut :=
  let issue := w.issue
  let comment := w.comment
  let snap := ULog.snapshot (issue.bind Issue.number)
    ((comment.bind IssueComment.user).bind User.login)
    ((comment.bind IssueComment.user).bind User.type)
    (comment.bind IssueComment.body)
  if ! isValidUnassignContext issue comment then
    { calls := [], logs := [snap, ULog.exitInvalid], result := Except.ok () }
  else
    let c := comment.getD default
    let i := issue.getD default
    if ! commentRequestsUnassign c.body then
      { calls := [], logs := [snap, ULog.exitNoCommand], result := Except.ok () }
    else
      let username := (c.user.bind User.login).getD ""
      let issueNumber := i.number.getD 0
      if ! isCurrentAssignee i username then
        { calls := []
          logs := [snap, ULog.commandDetected username, ULog.exitNotAssignee username]
          result := Except.ok () }
      else
        match w.listComments with
        | Except.error e =>
          { calls := [UAction.listComments w.repo issueNumber]
            logs := [snap, ULog.commandDetected username,
              ULog.errorCtx e (issue.bind Issue.number)
                ((comment.bind IssueComment.user).bind User.login)]
            result := Except.error e }
        | Except.ok comments =>
          let alreadyUnassigned := comments.any (hasUnassignMarker username)
          if alreadyUnassigned then
            { calls := [UAction.listComments w.repo issueNumber]
              logs := [snap, ULog.commandDetected username,
                ULog.exitAlready username issueNumber]
              result := Except.ok () }
          else
            match w.removeAssignees with
            | Except.error e =>
              { calls := [UAction.listComments w.repo issueNumber,
                  UAction.removeAssignees w.repo issueNumber [username]]
                logs := [snap, ULog.commandDetected username,
                  ULog.proceeding username issueNumber,
                  ULog.errorCtx e (issue.bind Issue.number)
                    ((comment.bind IssueComment.user).bind User.login)]
                result := Except.error e }
            | Except.ok _ =>
              match w.createComment with
              | Except.error e =>
                { calls := [UAction.listComments w.repo issueNumber,
                    UAction.removeAssignees w.repo issueNumber [username],
                    UAction.createComment w.repo issueNumber (unassignCommentBody username)]
                  logs := [snap, ULog.commandDetected username,
                    ULog.proceeding username issueNumber,
                    ULog.errorCtx e (issue.bind Issue.number)
                      ((comment.bind IssueComment.user).bind User.login)]
                  result := Except.error e }
              | Except.ok _ =>
                { calls := [UAction.listComments w.repo issueNumber,
                    UAction.removeAssignees w.repo issueNumber [username],
                    UAction.createComment w.repo issueNumber (unassignCommentBody username)]
                  logs := [snap, ULog.commandDetected username,
                    ULog.proceeding username issueNumber,
                    ULog.completed username issueNumber]
                  result := Except.ok () }

/-! ### Repeated runs of the notifier over one comment thread -/

/-- Run the notifier against a given comment-thread state. -/
def notifierOn (w : NotifierWorld) (cs : List Comment) : NOut :=
  runNotifier { w with listComments := Except.ok cs }

/-- The bodies the invocation handed to `createComment`. -/
def postedBodies (out : NOut) : List String :=
  out.calls.filterMap fun a =>
    match a with
    | NAction.createComment _ _ b => some b
    | _ => none

/-- One run of the notifier as a transition on the thread state: the
comments that were there before, plus whatever the run posted. -/
def notifierThreadStep (w : NotifierWorld) (cs : List Comment) : List Comment :=
  cs ++ (postedBodies (notifierOn w cs)).map fun b => { body := some b }

/-- Number of marker-tagged (reminder) comments in a thread. -/
def countMarkerComments (cs : List Comment) : Nat :=
  cs.countP hasLinkbotMarker

/-! ### Helper lemmas -/

theorem firstMatches_self_append (a b : List Char) : firstMatches a (a ++ b) = true := by
  induction a with
  | nil => rfl
  | cons x xs ih => simpa [firstMatches] using ih

theorem hasSub_self_append (a b : List Char) : hasSub a (a ++ b) = true := by
  cases a with
  | nil =>
    cases b with
    | nil => rfl
    | cons c t => simp [hasSub, firstMatches]
  | cons x xs =>
    have h : (x :: xs) ++ b = x :: (xs ++ b) := rfl
    rw [h, hasSub]
    have := firstMatches_self_append (x :: xs) b
    rw [h] at this
    simp [this]

theorem strIncludes_append_right (s t : String) : strIncludes (s ++ t) s = true := by
  unfold strIncludes
  have hd : (s ++ t).toList = s.toList ++ t.toList := by
    simp [String.toList]
  rw [hd]
  exact hasSub_self_append _ _

theorem hasLinkbotMarker_posted (a o r : String) :
    hasLinkbotMarker ⟨some (linkbotCommentBody a o r)⟩ = true := by
  simp [hasLinkbotMarker, jsIncludesOpt, linkbotCommentBody, strIncludes_append_right]

theorem hasUnassignMarker_posted (u : String) :
    hasUnassignMarker u ⟨some (unassignCommentBody u)⟩ = true := by
  simp [hasUnassignMarker, jsIncludesOpt, unassignCommentBody, strIncludes_append_right]

theorem any_marker_false_of_count_zero (cs : List Comment)
    (h : countMarkerComments cs = 0) : cs.any hasLinkbotMarker = false := by
  rw [Bool.eq_false_iff]
  intro hany
  rw [List.any_eq_true] at hany
  obtain ⟨c, hc, hpc⟩ := hany
  have := List.countP_eq_zero.mp h c hc
  simp_all [countMarkerComments]

theorem any_marker_true_of_count_one (cs : List Comment)
    (h : countMarkerComments cs = 1) : cs.any hasLinkbotMarker = true := by
  rw [List.any_eq_true]
  have hpos : 0 < cs.countP hasLinkbotMarker := by
    unfold countMarkerComments at h
    omega
  obtain ⟨c, hc, hpc⟩ := List.countP_pos_iff.mp hpos
  exact ⟨c, hc, hpc⟩

theorem prNumberOptOf_set_listComments (w : NotifierWorld) (x : Except String (List Comment)) :
    prNumberOptOf { w with listComments := x } = prNumberOptOf w := rfl

theorem prDataOf_set_listComments (w : NotifierWorld) (x : Except String (List Comment)) :
    prDataOf { w with listComments := x } = prDataOf w := rfl

/-- When the PR number is determined, the author is not a bot, the body
lacks a closing-keyword reference, dry run is off, `createComment`
succeeds and the thread has no marker comment yet, the run posts
exactly the reminder body. -/
theorem postedBodies_of_no_marker
    (w : NotifierWorld) (pd : PRData) (cs : List Comment)
    (hnum : jsFalsyNum (prNumberOptOf w) = false)
    (hpr : prDataOf w = Except.ok pd)
    (hbot : notifierIsBot pd = false)
    (hregex : linkRegexTest (jsOrEmptyStr pd.body) = false)
    (hdry : (w.dryRunEnv == some "true") = false)
    (hcc : w.createComment = Except.ok ())
    (hlc : w.listComments = Except.ok cs)
    (hmark : cs.any hasLinkbotMarker = false) :
    postedBodies (runNotifier w) =
      [linkbotCommentBody ((pd.user.bind User.login).getD "there")
        w.repo.owner w.repo.repo] := by
  cases hpp : w.payloadPullRequest with
  | some pd' =>
    have hpd : pd' = pd := by
      unfold prDataOf at hpr
      rw [hpp] at hpr
      exact (Except.ok.inj hpr)
    subst hpd
    simp [postedBodies, runNotifier, runNotifierWithPR, hnum, hbot, hmark, hregex,
      hdry, hcc, hlc, hpp]
  | none =>
    have hpg : w.pullsGet = Except.ok pd := by
      unfold prDataOf at hpr
      rw [hpp] at hpr
      exact hpr
    simp [postedBodies, runNotifier, runNotifierWithPR, hnum, hbot, hmark, hregex,
      hdry, hcc, hlc, hpp, hpg]

/-- Once a marker comment exists in the thread, a run posts nothing. -/
theorem postedBodies_of_marker
    (w : NotifierWorld) (pd : PRData) (cs : List Comment)
    (hnum : jsFalsyNum (prNumberOptOf w) = false)
    (hpr : prDataOf w = Except.ok pd)
    (hbot : notifierIsBot pd = false)
    (hlc : w.listComments = Except.ok cs)
    (hmark : cs.any hasLinkbotMarker = true) :
    postedBodies (runNotifier w) = [] := by
  cases hpp : w.payloadPullRequest with
  | some pd' =>
    have hpd : pd' = pd := by
      unfold prDataOf at hpr
      rw [hpp] at hpr
      exact (Except.ok.inj hpr)
    subst hpd
    simp [postedBodies, runNotifier, runNotifierWithPR, hnum, hbot, hmark, hlc, hpp]
  | none =>
    have hpg : w.pullsGet = Except.ok pd := by
      unfold prDataOf at hpr
      rw [hpp] at hpr
      exact hpr
    simp [postedBodies, runNotifier, runNotifierWithPR, hnum, hbot, hmark, hlc, hpp, hpg]

/-- Thread-level restatement of `postedBodies_of_no_marker`. -/
theorem notifierThreadStep_posts
    (w : NotifierWorld) (pd : PRData)
    (hnum : jsFalsyNum (prNumberOptOf w) = false)
    (hpr : prDataOf w = Except.ok pd)
    (hbot : notifierIsBot pd = false)
    (hregex : linkRegexTest (jsOrEmptyStr pd.body) = false)
    (hdry : (w.dryRunEnv == some "true") = false)
    (hcc : w.createComment = Except.ok ())
    (cs : List Comment) (hmark : cs.any hasLinkbotMarker = false) :
    notifierThreadStep w cs =
      cs ++ [⟨some (linkbotCommentBody ((pd.user.bind User.login).getD "there")
        w.repo.owner w.repo.repo)⟩] := by
  unfold notifierThreadStep notifierOn
  rw [postedBodies_of_no_marker { w with listComments := Except.ok cs } pd cs
    hnum hpr hbot hregex hdry hcc rfl hmark]
  rfl

/-- Thread-level restatement of `postedBodies_of_marker`. -/
theorem notifierThreadStep_skips
    (w : NotifierWorld) (pd : PRData)
    (hnum : jsFalsyNum (prNumberOptOf w) = false)
    (hpr : prDataOf w = Except.ok pd)
    (hbot : notifierIsBot pd = false)
    (cs : List Comment) (hmark : cs.any hasLinkbotMarker = true) :
    notifierThreadStep w cs = cs := by
  unfold notifierThreadStep notifierOn
  rw [postedBodies_of_marker { w with listComments := Except.ok cs } pd cs
    hnum hpr hbot rfl hmark]
  simp

/-! ### Concrete fixtures used by the witnesses -/

/-- A sample repository. -/
def repo0 : Repo := { owner := "o", repo := "r" }

/-- A sample non-bot user. -/
def alice : User := { login := some "alice", type := some "User" }

/-- A sample pull request with a body lacking any closing keyword. -/
def prPlain : PRData := { number := some 5, user := some alice, body := some "hello" }

/-- A notifier world for `prPlain`: event-triggered, not dry run, all
API calls succeed, empty thread. -/
def nwPlain : NotifierWorld :=
  { dryRunEnv := none, envPrNumber := none, payloadPullRequest := some prPlain,
    repo := repo0, pullsGet := Except.error "unused",
    listComments := Except.ok [], createComment := Except.ok () }

/-! ### C1 -/

/-- C1: for any PR whose body lacks a closing keyword (non-bot author,
determined PR number, dry run off, `createComment` succeeding), running
the notifier any number of times from a thread with no marker comment
leaves exactly one marker-tagged reminder comment: the first run posts
it and every later run finds the marker and takes no action. -/
theorem linkbot_single_reminder_invariant
    (w : NotifierWorld) (pd : PRData) (cs0 : List Comment) (k : Nat)
    (hnum : jsFalsyNum (prNumberOptOf w) = false)
    (hpr : prDataOf w = Except.ok pd)
    (hbot : notifierIsBot pd = false)
    (hregex : linkRegexTest (jsOrEmptyStr pd.body) = false)
    (hdry : (w.dryRunEnv == some "true") = false)
    (hcc : w.createComment = Except.ok ())
    (h0 : countMarkerComments cs0 = 0)
    (hk : 1 ≤ k) :
    countMarkerComments (Nat.iterate (notifierThreadStep w) k cs0) = 1 := by
  obtain ⟨m, rfl⟩ : ∃ m, k = m + 1 := ⟨k - 1, by omega⟩
  have stable : ∀ (m : Nat) (cs : List Comment), countMarkerComments cs = 1 →
      countMarkerComments (Nat.iterate (notifierThreadStep w) m cs) = 1 := by
    intro m
    induction m with
    | zero => intro cs h; simpa using h
    | succ m ih =>
      intro cs h
      rw [Function.iterate_succ_apply]
      have hskip := notifierThreadStep_skips w pd hnum hpr hbot cs
        (any_marker_true_of_count_one cs h)
      rw [hskip]
      exact ih cs h
  have h1 : countMarkerComments (notifierThreadStep w cs0) = 1 := by
    rw [notifierThreadStep_posts w pd hnum hpr hbot hregex hdry hcc cs0
      (any_marker_false_of_count_zero cs0 h0)]
    simp [countMarkerComments, List.countP_append] at h0 ⊢
    simp [h0, List.countP_cons, hasLinkbotMarker_posted]
    exact h0
  rw [Function.iterate_succ_apply]
  exact stable m _ h1

/-- Witness for C1 at a concrete world: two runs on an initially empty
thread leave exactly one marker comment. -/
theorem linkbot_single_reminder_invariant_witness :
    countMarkerComments (Nat.iterate (notifierThreadStep nwPlain) 2 []) = 1 :=
  linkbot_single_reminder_invariant nwPlain prPlain [] 2
    (by decide) rfl (by decide) (by decide) (by decide) rfl rfl (by decide)

/-! ### C2 -/

/-- C2: on an open issue, a standalone `/unassign` comment from a
current assignee makes the handler call `removeAssignees` for exactly
that user and then post exactly one confirmation comment containing the
per-user marker; a second run after that comment has been added to the
thread performs no API mutation. -/
theorem unassign_once_then_noop
    (w : UnassignWorld) (i : Issue) (c : IssueComment) (u : User)
    (login : String) (n : Nat) (cs : List Comment)
    (hi : w.issue = some i)
    (hc : w.comment = some c)
    (hu : c.user = some u)
    (hl : u.login = some login)
    (hv : isValidUnassignContext w.issue w.comment = true)
    (hcmd : commentRequestsUnassign c.body = true)
    (hass : isCurrentAssignee i login = true)
    (hn : i.number = some n)
    (hlc : w.listComments = Except.ok cs)
    (hmark : cs.any (hasUnassignMarker login) = false)
    (hra : w.removeAssignees = Except.ok ())
    (hcc : w.createComment = Except.ok ()) :
    ((runUnassign w).calls.filter isMutationU =
      [UAction.removeAssignees w.repo n [login],
       UAction.createComment w.repo n (unassignCommentBody login)]) ∧
    strIncludes (unassignCommentBody login) (buildUnassignMarker login) = true ∧
    ((runUnassign
        { w with listComments := Except.ok (cs ++ [⟨some (unassignCommentBody login)⟩]) }).calls.filter
      isMutationU = []) := by
  rw [hi, hc] at hv
  refine ⟨?_, ?_, ?_⟩
  · simp [runUnassign, hi, hc, hu, hl, hv, hcmd, hass, hn, hlc, hmark, hra, hcc,
      isMutationU, unassignCommentBody]
  · exact strIncludes_append_right _ _
  · simp [runUnassign, hi, hc, hu, hl, hv, hcmd, hass, hn, isMutationU,
      hasUnassignMarker_posted]

/-- The `/unassign` comment `alice` posts on the sample issue. -/
def unMsg : IssueComment := { body := some "/unassign", user := some alice }

/-- A sample open issue assigned to `alice`. -/
def unIssue : Issue :=
  { number := some 3, pull_request := false, state := some "open",
    assignees := some [alice] }

/-- An unassign world for `unIssue`: empty thread, all API calls ok. -/
def uwPlain : UnassignWorld :=
  { issue := some unIssue, comment := some unMsg, repo := repo0,
    listComments := Except.ok [], removeAssignees := Except.ok (),
    createComment := Except.ok () }

/-- Witness for C2 at a concrete world. -/
theorem unassign_once_then_noop_witness :
    ((runUnassign uwPlain).calls.filter isMutationU =
      [UAction.removeAssignees repo0 3 ["alice"],
       UAction.createComment repo0 3 (unassignCommentBody "alice")]) ∧
    strIncludes (unassignCommentBody "alice") (buildUnassignMarker "alice") = true ∧
    ((runUnassign
        { uwPlain with listComments := Except.ok ([] ++ [⟨some (unassignCommentBody "alice")⟩]) }).calls.filter
      isMutationU = []) :=
  unassign_once_then_noop uwPlain unIssue unMsg alice "alice" 3 []
    rfl rfl rfl rfl (by decide) (by decide) (by decide) rfl rfl (by decide) rfl rfl

/-! ### C5 -/

/-- C5: whenever a precondition of the unassign handler fails — issue
missing or a PR, comment without body or without a non-bot author,
issue not open (that disjunction is exactly
`isValidUnassignContext = false`) — the handler exits silently with no
API call; in particular a closed issue suppresses all processing
whatever the comment says. -/
theorem unassign_invalid_context_noop :
    (∀ w : UnassignWorld, isValidUnassignContext w.issue w.comment = false →
      (runUnassign w).calls = [] ∧ (runUnassign w).result = Except.ok ()) ∧
    (∀ (w : UnassignWorld) (i : Issue), w.issue = some i → i.state = some "closed" →
      (runUnassign w).calls = [] ∧ (runUnassign w).result = Except.ok ()) := by
  have base : ∀ w : UnassignWorld, isValidUnassignContext w.issue w.comment = false →
      (runUnassign w).calls = [] ∧ (runUnassign w).result = Except.ok () := by
    intro w h
    simp [runUnassign, h]
  refine ⟨base, ?_⟩
  intro w i hi hstate
  apply base
  simp [isValidUnassignContext, hi, hstate]

/-- A sample closed issue assigned to `alice`. -/
def unIssueClosed : Issue :=
  { number := some 6, pull_request := false, state := some "closed",
    assignees := some [alice] }

/-- An unassign world whose issue is closed. -/
def uwClosed : UnassignWorld :=
  { issue := some unIssueClosed, comment := some unMsg, repo := repo0,
    listComments := Except.ok [], removeAssignees := Except.ok (),
    createComment := Except.ok () }

/-- Witness for C5: an `/unassign` comment on a closed issue causes no
API call. -/
theorem unassign_invalid_context_noop_witness :
    (runUnassign uwClosed).calls = [] ∧ (runUnassign uwClosed).result = Except.ok () :=
  unassign_invalid_context_noop.2 uwClosed unIssueClosed rfl rfl

/-! ### C6 -/

/-- C6: a comment whose body contains a standalone `/unassign` token,
authored by a user who is not among the issue's current assignees,
makes the handler exit without any API call. -/
theorem unassign_non_assignee_noop
    (w : UnassignWorld) (i : Issue) (c : IssueComment) (login : String)
    (hi : w.issue = some i)
    (hc : w.comment = some c)
    (hl : (c.user.bind User.login) = some login)
    (hcmd : commentRequestsUnassign c.body = true)
    (hass : isCurrentAssignee i login = false) :
    (runUnassign w).calls = [] ∧ (runUnassign w).result = Except.ok () := by
  cases hv : isValidUnassignContext w.issue w.comment with
  | false => simp [runUnassign, hv]
  | true =>
    rw [hi, hc] at hv
    simp [runUnassign, hi, hc, hv, hcmd, hl, hass]

/-- A sample open issue with an empty assignee list. -/
def unIssueNoAssignees : Issue :=
  { number := some 4, pull_request := false, state := some "open",
    assignees := some [] }

/-- The example comment of the spec, by a non-assignee. -/
def unMsgPlease : IssueComment :=
  { body := some "please /unassign me", user := some alice }

/-- An unassign world where the commenter is not an assignee. -/
def uwNonAssignee : UnassignWorld :=
  { issue := some unIssueNoAssignees, comment := some unMsgPlease, repo := repo0,
    listComments := Except.ok [], removeAssignees := Except.ok (),
    createComment := Except.ok () }

/-- Witness for C6: "please /unassign me" from a non-assignee causes no
API call. -/
theorem unassign_non_assignee_noop_witness :
    (runUnassign uwNonAssignee).calls = [] ∧
    (runUnassign uwNonAssignee).result = Except.ok () :=
  unassign_non_assignee_noop uwNonAssignee unIssueNoAssignees unMsgPlease "alice"
    rfl rfl rfl (by decide) (by decide)

/-! ### C3 -/

/-- The same issue as `unIssue` but with an empty payload assignee
list; everything the API would answer is unchanged. -/
def unIssueStale : Issue :=
  { number := some 3, pull_request := false, state := some "open",
    assignees := some [] }

/-- `uwPlain` with only the payload-carried assignee list changed. -/
def uwStale : UnassignWorld :=
  { issue := some unIssueStale, comment := some unMsg, repo := repo0,
    listComments := Except.ok [], removeAssignees := Except.ok (),
    createComment := Except.ok () }

/-- Counterexample for C3: two worlds with identical API responses but
different payload assignee lists lead to different mutation behaviour,
so the handler does **not** re-derive the current-assignee set fresh
from the API — it reads it from the triggering event's payload. -/
theorem unassign_payload_assignees_cex :
    uwPlain.listComments = uwStale.listComments ∧
    uwPlain.removeAssignees = uwStale.removeAssignees ∧
    uwPlain.createComment = uwStale.createComment ∧
    ((runUnassign uwPlain).calls.filter isMutationU).length = 2 ∧
    ((runUnassign uwStale).calls.filter isMutationU).length = 0 := by
  refine ⟨rfl, rfl, rfl, ?_, ?_⟩ <;> decide

/-- C3 (amended): the handler re-derives the past comment history
fresh from the API, but reads the current-assignee set from the event
payload: under a valid context and an `/unassign` command, it mutates
exactly when the commenter is in the payload's assignee list and the
API-fetched comment history lacks the per-user marker. -/
theorem unassign_state_sources
    (w : UnassignWorld) (i : Issue) (c : IssueComment) (u : User)
    (login : String) (cs : List Comment)
    (hi : w.issue = some i)
    (hc : w.comment = some c)
    (hu : c.user = some u)
    (hl : u.login = some login)
    (hv : isValidUnassignContext w.issue w.comment = true)
    (hcmd : commentRequestsUnassign c.body = true)
    (hlc : w.listComments = Except.ok cs) :
    (runUnassign w).calls.any isMutationU = true ↔
      (isCurrentAssignee i login = true ∧ cs.any (hasUnassignMarker login) = false) := by
  rw [hi, hc] at hv
  cases hass : isCurrentAssignee i login with
  | false => simp [runUnassign, hi, hc, hu, hl, hv, hcmd, hass]
  | true =>
    cases hmark : cs.any (hasUnassignMarker login) with
    | true => simp [runUnassign, hi, hc, hu, hl, hv, hcmd, hass, hlc, hmark, isMutationU]
    | false =>
      cases hra : w.removeAssignees <;> cases hcc : w.createComment <;>
        simp [runUnassign, hi, hc, hu, hl, hv, hcmd, hass, hlc, hmark, hra, hcc,
          isMutationU]

/-- Witness for the amended C3 at a concrete world. -/
theorem unassign_state_sources_witness :
    (runUnassign uwPlain).calls.any isMutationU = true ↔
      (isCurrentAssignee unIssue "alice" = true ∧
        List.any [] (hasUnassignMarker "alice") = false) :=
  unassign_state_sources uwPlain unIssue unMsg alice "alice" []
    rfl rfl rfl rfl (by decide) (by decide) rfl

/-! ### Case analysis of the notifier -/

/-- If a run of the tail of the notifier attempts a mutation not already
in `calls0`, then every posting condition held. -/
theorem withPR_mutation_imp
    (w : NotifierWorld) (isDryRun : Bool) (prNumber : Nat)
    (logs0 : List NLog) (calls0 : List NAction) (pd : PRData)
    (hc0 : calls0.any isMutationN = false)
    (h : (runNotifierWithPR w isDryRun prNumber logs0 calls0 pd).calls.any isMutationN = true) :
    notifierIsBot pd = false ∧
    ∃ cs, w.listComments = Except.ok cs ∧
      cs.any hasLinkbotMarker = false ∧
      linkRegexTest (jsOrEmptyStr pd.body) = false ∧
      isDryRun = false := by
  cases hbot : notifierIsBot pd with
  | true =>
    exfalso
    simp [runNotifierWithPR, hbot, hc0] at h
  | false =>
    cases hlc : w.listComments with
    | error e =>
      exfalso
      simp [runNotifierWithPR, hbot, hlc, hc0, isMutationN] at h
    | ok cs =>
      cases hmark : cs.any hasLinkbotMarker with
      | true =>
        exfalso
        simp [runNotifierWithPR, hbot, hlc, hmark, hc0, isMutationN] at h
      | false =>
        cases hreg : linkRegexTest (jsOrEmptyStr pd.body) with
        | true =>
          exfalso
          simp [runNotifierWithPR, hbot, hlc, hmark, hreg, hc0, isMutationN] at h
        | false =>
          cases hdry : isDryRun with
          | true =>
            exfalso
            simp [runNotifierWithPR, hbot, hlc, hmark, hreg, hdry, hc0, isMutationN] at h
          | false =>
            exact ⟨rfl, cs, rfl, hmark, rfl, rfl⟩

/-- If a notifier run attempts a mutation, then every posting condition
held: determined PR number, resolved non-bot PR data, fetched thread
without the marker, body not matching the pattern, dry run off. -/
theorem notifier_mutation_imp
    (w : NotifierWorld)
    (h : (runNotifier w).calls.any isMutationN = true) :
    jsFalsyNum (prNumberOptOf w) = false ∧
    ∃ pd, prDataOf w = Except.ok pd ∧
      notifierIsBot pd = false ∧
      (∃ cs, w.listComments = Except.ok cs ∧ cs.any hasLinkbotMarker = false) ∧
      linkRegexTest (jsOrEmptyStr pd.body) = false ∧
      (w.dryRunEnv == some "true") = false := by
  cases hf : jsFalsyNum (prNumberOptOf w) with
  | true =>
    exfalso
    simp [runNotifier, hf, isMutationN] at h
  | false =>
    cases hpp : w.payloadPullRequest with
    | some pd =>
      have h' : (runNotifierWithPR { w with listComments := w.listComments }
          (w.dryRunEnv == some "true") ((prNumberOptOf w).getD 0)
          [NLog.processing ((prNumberOptOf w).getD 0) (w.dryRunEnv == some "true")] [] pd).calls.any
          isMutationN = true := by
        simpa [runNotifier, hf, hpp] using h
      obtain ⟨hbot, cs, hlc, hmark, hreg, hdry⟩ :=
        withPR_mutation_imp _ _ _ _ _ _ (by simp) h'
      exact ⟨rfl, pd, by simp [prDataOf, hpp], hbot, ⟨cs, hlc, hmark⟩, hreg, hdry⟩
    | none =>
      cases hpg : w.pullsGet with
      | error e =>
        exfalso
        simp [runNotifier, hf, hpp, hpg, isMutationN] at h
      | ok pd =>
        have h' : (runNotifierWithPR { w with listComments := w.listComments }
            (w.dryRunEnv == some "true") ((prNumberOptOf w).getD 0)
            [NLog.processing ((prNumberOptOf w).getD 0) (w.dryRunEnv == some "true")]
            [NAction.pullsGet w.repo ((prNumberOptOf w).getD 0)] pd).calls.any
            isMutationN = true := by
          simpa [runNotifier, hf, hpp, hpg] using h
        obtain ⟨hbot, cs, hlc, hmark, hreg, hdry⟩ :=
          withPR_mutation_imp _ _ _ _ _ _ (by simp [isMutationN]) h'
        exact ⟨rfl, pd, by simp [prDataOf, hpp, hpg], hbot, ⟨cs, hlc, hmark⟩, hreg, hdry⟩

/-! ### C4 -/

/-- At a position where `Fixes #12` starts, the pattern body matches
(whatever follows). -/
theorem linkMatchAt_fixes12 (v : List Char) :
    linkMatchAt ('F' :: 'i' :: 'x' :: 'e' :: 's' :: ' ' :: '#' :: '1' :: '2' :: v) = true := rfl

/-- Scanning reaches any occurrence of `Fixes #12` whose preceding
character (if any) is not a word character. -/
theorem linkScan_fixes12_sub :
    ∀ (u : List Char) (prev : Option Char) (v : List Char),
      (u = [] → notWordBefore prev = true) →
      (∀ c ∈ u.getLast?, isWordChar c = false) →
      linkScan prev (u ++ ('F' :: 'i' :: 'x' :: 'e' :: 's' :: ' ' :: '#' :: '1' :: '2' :: []) ++ v) = true := by
  intro u
  induction u with
  | nil =>
    intro prev v h1 _
    have hb := h1 rfl
    simp only [List.nil_append, List.cons_append, linkScan, hb, Bool.true_and]
    have hm : linkMatchAt ('F' :: List.append ['i', 'x', 'e', 's', ' ', '#', '1', '2'] v) = true := rfl
    rw [hm]
    simp
  | cons a u' ih =>
    intro prev v h1 h2
    have h1' : u' = [] → notWordBefore (some a) = true := by
      intro hu
      subst hu
      have := h2 a (by simp)
      simp [notWordBefore, this]
    have h2' : ∀ c ∈ u'.getLast?, isWordChar c = false := by
      intro c hc
      apply h2
      cases u' with
      | nil => simp at hc
      | cons b t =>
        rw [List.getLast?_cons_cons]
        exact hc
    simp only [List.cons_append, linkScan]
    rw [Bool.or_eq_true]
    exact Or.inr (ih (some a) v h1' h2')

/-- A PR whose body contains `Fixes #12` right after a word character. -/
def prContainsFixes : PRData :=
  { number := some 8, user := some alice, body := some "xFixes #12" }

/-- A notifier world for `prContainsFixes`. -/
def nwContainsFixes : NotifierWorld :=
  { dryRunEnv := none, envPrNumber := none, payloadPullRequest := some prContainsFixes,
    repo := repo0, pullsGet := Except.error "unused",
    listComments := Except.ok [], createComment := Except.ok () }

/-- Counterexample for C4's "in particular any PR body containing
`Fixes #12`": the body `"xFixes #12"` contains `Fixes #12` as a
substring, yet the notifier posts the reminder, because `\b` fails
after the word character `x`. -/
theorem link_contains_fixes_cex :
    strIncludes "xFixes #12" "Fixes #12" = true ∧
    (runNotifier nwContainsFixes).calls.any isMutationN = true := by
  constructor <;> decide

/-- C4 (amended): a PR whose body matches the closing-keyword pattern
never receives a comment; and a body contains a match whenever it
contains `Fixes #12` at the start or after a non-word character (the
substring claim holds only with that boundary proviso). -/
theorem link_pattern_no_comment :
    (∀ (w : NotifierWorld) (pd : PRData), prDataOf w = Except.ok pd →
      linkRegexTest (jsOrEmptyStr pd.body) = true →
      (runNotifier w).calls.any isMutationN = false) ∧
    (∀ u v : List Char, (∀ c ∈ u.getLast?, isWordChar c = false) →
      linkScan none (u ++ String.toList "Fixes #12" ++ v) = true) := by
  constructor
  · intro w pd hpr hreg
    cases h : (runNotifier w).calls.any isMutationN with
    | false => rfl
    | true =>
      exfalso
      obtain ⟨-, pd', hpr', -, -, hreg', -⟩ := notifier_mutation_imp w h
      rw [hpr] at hpr'
      rw [Except.ok.inj hpr'] at hreg
      rw [hreg] at hreg'
      exact Bool.true_eq_false.mp hreg'
  · intro u v h2
    exact linkScan_fixes12_sub u none v (fun _ => rfl) h2

/-- A PR whose body is exactly `Fixes #12`. -/
def prLinked : PRData :=
  { number := some 9, user := some alice, body := some "Fixes #12" }

/-- A notifier world for `prLinked`. -/
def nwLinked : NotifierWorld :=
  { dryRunEnv := none, envPrNumber := none, payloadPullRequest := some prLinked,
    repo := repo0, pullsGet := Except.error "unused",
    listComments := Except.ok [], createComment := Except.ok () }

/-- Witness for the amended C4 at concrete inputs. -/
theorem link_pattern_no_comment_witness :
    (runNotifier nwLinked).calls.any isMutationN = false ∧
    linkScan none ([] ++ String.toList "Fixes #12" ++ []) = true :=
  ⟨link_pattern_no_comment.1 nwLinked prLinked rfl (by decide),
   link_pattern_no_comment.2 [] [] (by simp)⟩

/-! ### C7 -/

/-- C7: a pull request authored by a bot account (type `Bot` or a login
ending in `[bot]`) never gets a comment, whatever its body; when the PR
number is determined the handler returns normally. -/
theorem notifier_bot_skip
    (w : NotifierWorld) (pd : PRData)
    (hpr : prDataOf w = Except.ok pd)
    (hbot : notifierIsBot pd = true) :
    (runNotifier w).calls.any isMutationN = false ∧
    (jsFalsyNum (prNumberOptOf w) = false → (runNotifier w).result = Except.ok ()) := by
  constructor
  · cases h : (runNotifier w).calls.any isMutationN with
    | false => rfl
    | true =>
      exfalso
      obtain ⟨-, pd', hpr', hbot', -, -, -⟩ := notifier_mutation_imp w h
      rw [hpr] at hpr'
      rw [← Except.ok.inj hpr'] at hbot'
      rw [hbot] at hbot'
      exact Bool.true_eq_false.mp hbot'
  · intro hf
    cases hpp : w.payloadPullRequest with
    | some pd' =>
      have hpd : pd' = pd := by
        unfold prDataOf at hpr
        rw [hpp] at hpr
        exact Except.ok.inj hpr
      subst hpd
      simp [runNotifier, runNotifierWithPR, hf, hpp, hbot]
    | none =>
      have hpg : w.pullsGet = Except.ok pd := by
        unfold prDataOf at hpr
        rw [hpp] at hpr
        exact hpr
      simp [runNotifier, runNotifierWithPR, hf, hpp, hpg, hbot]

/-- A PR authored by a bot, with no linked issue in the body. -/
def prBot : PRData :=
  { number := some 11,
    user := some { login := some "dependabot[bot]", type := some "Bot" },
    body := some "bump deps" }

/-- A notifier world for `prBot`. -/
def nwBot : NotifierWorld :=
  { dryRunEnv := none, envPrNumber := none, payloadPullRequest := some prBot,
    repo := repo0, pullsGet := Except.error "unused",
    listComments := Except.ok [], createComment := Except.ok () }

/-- Witness for C7 at a concrete world. -/
theorem notifier_bot_skip_witness :
    ((runNotifier nwBot).calls.any isMutationN = false ∧
      (jsFalsyNum (prNumberOptOf nwBot) = false →
        (runNotifier nwBot).result = Except.ok ())) ∧
    (runNotifier nwBot).result = Except.ok () := by
  have h := notifier_bot_skip nwBot prBot rfl (by decide)
  exact ⟨h, h.2 (by decide)⟩

/-! ### C9 -/

/-- C9: with `DRY_RUN` set to `'true'`, no mutating API call is ever
made, and on the path where a reminder would be posted the handler
instead logs the would-be comment body. -/
theorem notifier_dry_run_no_mutation
    (w : NotifierWorld)
    (hdry : w.dryRunEnv = some "true") :
    (runNotifier w).calls.any isMutationN = false ∧
    (∀ (pd : PRData) (cs : List Comment),
      jsFalsyNum (prNumberOptOf w) = false →
      prDataOf w = Except.ok pd →
      notifierIsBot pd = false →
      w.listComments = Except.ok cs →
      cs.any hasLinkbotMarker = false →
      linkRegexTest (jsOrEmptyStr pd.body) = false →
      NLog.dryRunWouldPost (linkbotCommentBody ((pd.user.bind User.login).getD "there")
        w.repo.owner w.repo.repo) ∈ (runNotifier w).logs) := by
  constructor
  · cases h : (runNotifier w).calls.any isMutationN with
    | false => rfl
    | true =>
      exfalso
      obtain ⟨-, -, -, -, -, -, hdry'⟩ := notifier_mutation_imp w h
      rw [hdry] at hdry'
      simp at hdry'
  · intro pd cs hf hpr hbot hlc hmark hreg
    cases hpp : w.payloadPullRequest with
    | some pd' =>
      have hpd : pd' = pd := by
        unfold prDataOf at hpr
        rw [hpp] at hpr
        exact Except.ok.inj hpr
      subst hpd
      simp [runNotifier, runNotifierWithPR, hf, hpp, hbot, hlc, hmark, hreg, hdry]
    | none =>
      have hpg : w.pullsGet = Except.ok pd := by
        unfold prDataOf at hpr
        rw [hpp] at hpr
        exact hpr
      simp [runNotifier, runNotifierWithPR, hf, hpp, hpg, hbot, hlc, hmark, hreg, hdry]

/-- `nwPlain` with the dry-run flag set. -/
def nwDry : NotifierWorld :=
  { dryRunEnv := some "true", envPrNumber := none, payloadPullRequest := some prPlain,
    repo := repo0, pullsGet := Except.error "unused",
    listComments := Except.ok [], createComment := Except.ok () }

/-- Witness for C9 at a concrete world. -/
theorem notifier_dry_run_no_mutation_witness :
    (runNotifier nwDry).calls.any isMutationN = false ∧
    NLog.dryRunWouldPost (linkbotCommentBody "alice" "o" "r") ∈ (runNotifier nwDry).logs := by
  have h := notifier_dry_run_no_mutation nwDry rfl
  exact ⟨h.1, h.2 prPlain [] (by decide) rfl (by decide) rfl (by decide) (by decide)⟩

/-! ### C10 -/

/-- C10: a non-bot PR whose `body` field is absent is treated as having
the empty body, which never matches the pattern, so (no prior marker,
dry run off, `createComment` succeeding) the run posts exactly the
reminder comment. -/
theorem notifier_missing_body_reminder
    (w : NotifierWorld) (pd : PRData) (cs : List Comment)
    (hf : jsFalsyNum (prNumberOptOf w) = false)
    (hpr : prDataOf w = Except.ok pd)
    (hbody : pd.body = none)
    (hbot : notifierIsBot pd = false)
    (hlc : w.listComments = Except.ok cs)
    (hmark : cs.any hasLinkbotMarker = false)
    (hdry : (w.dryRunEnv == some "true") = false)
    (hcc : w.createComment = Except.ok ()) :
    linkRegexTest "" = false ∧
    (runNotifier w).calls.filter isMutationN =
      [NAction.createComment w.repo ((prNumberOptOf w).getD 0)
        (linkbotCommentBody ((pd.user.bind User.login).getD "there")
          w.repo.owner w.repo.repo)] := by
  have hreg : linkRegexTest "" = false := by decide
  refine ⟨hreg, ?_⟩
  have hreg' : linkRegexTest (jsOrEmptyStr pd.body) = false := by
    rw [hbody]
    exact hreg
  cases hpp : w.payloadPullRequest with
  | some pd' =>
    have hpd : pd' = pd := by
      unfold prDataOf at hpr
      rw [hpp] at hpr
      exact Except.ok.inj hpr
    subst hpd
    simp [runNotifier, runNotifierWithPR, hf, hpp, hbot, hlc, hmark, hreg', hdry, hcc,
      isMutationN]
  | none =>
    have hpg : w.pullsGet = Except.ok pd := by
      unfold prDataOf at hpr
      rw [hpp] at hpr
      exact hpr
    simp [runNotifier, runNotifierWithPR, hf, hpp, hpg, hbot, hlc, hmark, hreg', hdry,
      hcc, isMutationN]

/-- A non-bot PR with an absent body. -/
def prNoBody : PRData := { number := some 12, user := some alice, body := none }

/-- A notifier world for `prNoBody`. -/
def nwNoBody : NotifierWorld :=
  { dryRunEnv := none, envPrNumber := none, payloadPullRequest := some prNoBody,
    repo := repo0, pullsGet := Except.error "unused",
    listComments := Except.ok [], createComment := Except.ok () }

/-- Witness for C10 at a concrete world. -/
theorem notifier_missing_body_reminder_witness :
    linkRegexTest "" = false ∧
    (runNotifier nwNoBody).calls.filter isMutationN =
      [NAction.createComment repo0 12 (linkbotCommentBody "alice" "o" "r")] :=
  notifier_missing_body_reminder nwNoBody prNoBody []
    (by decide) rfl rfl (by decide) rfl (by decide) (by decide) rfl

/-! ### C8 -/

/-- If the tail of the notifier ends in a rethrown error, the catch
block logged the error context (PR number and repository). -/
theorem withPR_error_log
    (w : NotifierWorld) (isDryRun : Bool) (prNumber : Nat)
    (logs0 : List NLog) (calls0 : List NAction) (pd : PRData) (e : String)
    (h : (runNotifierWithPR w isDryRun prNumber logs0 calls0 pd).result = Except.error e) :
    NLog.errorCtx e (some prNumber) w.repo ∈
      (runNotifierWithPR w isDryRun prNumber logs0 calls0 pd).logs := by
  cases hbot : notifierIsBot pd with
  | true =>
    exfalso
    simp [runNotifierWithPR, hbot] at h
  | false =>
    cases hlc : w.listComments with
    | error e' =>
      have he : e' = e := by simpa [runNotifierWithPR, hbot, hlc] using h
      subst he
      simp [runNotifierWithPR, hbot, hlc]
    | ok cs =>
      cases hmark : cs.any hasLinkbotMarker with
      | true =>
        exfalso
        simp [runNotifierWithPR, hbot, hlc, hmark] at h
      | false =>
        cases hreg : linkRegexTest (jsOrEmptyStr pd.body) with
        | true =>
          exfalso
          simp [runNotifierWithPR, hbot, hlc, hmark, hreg] at h
        | false =>
          cases hdry : isDryRun with
          | true =>
            exfalso
            simp [runNotifierWithPR, hbot, hlc, hmark, hreg, hdry] at h
          | false =>
            cases hcc : w.createComment with
            | error e' =>
              have he : e' = e := by
                simpa [runNotifierWithPR, hbot, hlc, hmark, hreg, hdry, hcc] using h
              subst he
              simp [runNotifierWithPR, hbot, hlc, hmark, hreg, hdry, hcc]
            | ok v =>
              exfalso
              cases v
              simp [runNotifierWithPR, hbot, hlc, hmark, hreg, hdry, hcc] at h

/-- C8: unexpected errors are logged with context and rethrown —
whenever a handler's result is an error, its logs contain the error
context entry (PR number and repository for the notifier; issue number
and commenter for the unassign handler) — while the expected no-op
conditions (bot author, already-commented, invalid context, e.g. not
open, and not-assignee) return normally. -/
theorem handlers_error_propagation :
    (∀ (w : NotifierWorld) (e : String), (runNotifier w).result = Except.error e →
      ∃ pn, NLog.errorCtx e pn w.repo ∈ (runNotifier w).logs) ∧
    (∀ (w : UnassignWorld) (e : String), (runUnassign w).result = Except.error e →
      ULog.errorCtx e (w.issue.bind Issue.number)
        ((w.comment.bind IssueComment.user).bind User.login) ∈ (runUnassign w).logs) ∧
    (∀ (w : NotifierWorld) (pd : PRData), jsFalsyNum (prNumberOptOf w) = false →
      prDataOf w = Except.ok pd → notifierIsBot pd = true →
      (runNotifier w).result = Except.ok ()) ∧
    (∀ (w : NotifierWorld) (pd : PRData) (cs : List Comment),
      jsFalsyNum (prNumberOptOf w) = false → prDataOf w = Except.ok pd →
      w.listComments = Except.ok cs → cs.any hasLinkbotMarker = true →
      (runNotifier w).result = Except.ok ()) ∧
    (∀ w : UnassignWorld, isValidUnassignContext w.issue w.comment = false →
      (runUnassign w).result = Except.ok ()) ∧
    (∀ (w : UnassignWorld) (i : Issue) (login : String), w.issue = some i →
      (w.comment.bind IssueComment.user).bind User.login = some login →
      isCurrentAssignee i login = false →
      (runUnassign w).result = Except.ok ()) := by
  refine ⟨?_, ?_, ?_, ?_, ?_, ?_⟩
  · -- notifier: error implies error-context log
    intro w e h
    cases hf : jsFalsyNum (prNumberOptOf w) with
    | true =>
      have he : "PR number could not be determined" = e := by
        simpa [runNotifier, hf] using h
      subst he
      exact ⟨prNumberOptOf w, by simp [runNotifier, hf]⟩
    | false =>
      cases hpp : w.payloadPullRequest with
      | some pd =>
        have h' : (runNotifierWithPR w (w.dryRunEnv == some "true")
            ((prNumberOptOf w).getD 0)
            [NLog.processing ((prNumberOptOf w).getD 0) (w.dryRunEnv == some "true")]
            [] pd).result = Except.error e := by
          simpa [runNotifier, hf, hpp] using h
        have hm := withPR_error_log w _ _ _ _ pd e h'
        exact ⟨some ((prNumberOptOf w).getD 0), by simpa [runNotifier, hf, hpp] using hm⟩
      | none =>
        cases hpg : w.pullsGet with
        | error e' =>
          have he : e' = e := by simpa [runNotifier, hf, hpp, hpg] using h
          subst he
          exact ⟨some ((prNumberOptOf w).getD 0), by simp [runNotifier, hf, hpp, hpg]⟩
        | ok pd =>
          have h' : (runNotifierWithPR w (w.dryRunEnv == some "true")
              ((prNumberOptOf w).getD 0)
              [NLog.processing ((prNumberOptOf w).getD 0) (w.dryRunEnv == some "true")]
              [NAction.pullsGet w.repo ((prNumberOptOf w).getD 0)] pd).result =
              Except.error e := by
            simpa [runNotifier, hf, hpp, hpg] using h
          have hm := withPR_error_log w _ _ _ _ pd e h'
          exact ⟨some ((prNumberOptOf w).getD 0), by simpa [runNotifier, hf, hpp, hpg] using hm⟩
  · -- unassign: error implies error-context log
    intro w e h
    cases hv : isValidUnassignContext w.issue w.comment with
    | false =>
      exfalso
      simp [runUnassign, hv] at h
    | true =>
      cases hcmd : commentRequestsUnassign (w.comment.getD default).body with
      | false =>
        exfalso
        simp [runUnassign, hv, hcmd] at h
      | true =>
        cases hass : isCurrentAssignee (w.issue.getD default)
            (((w.comment.getD default).user.bind User.login).getD "") with
        | false =>
          exfalso
          simp [runUnassign, hv, hcmd, hass] at h
        | true =>
          cases hlc : w.listComments with
          | error e' =>
            have he : e' = e := by simpa [runUnassign, hv, hcmd, hass, hlc] using h
            subst he
            simp [runUnassign, hv, hcmd, hass, hlc]
          | ok cs =>
            cases hmark : cs.any (hasUnassignMarker
                (((w.comment.getD default).user.bind User.login).getD "")) with
            | true =>
              exfalso
              simp [runUnassign, hv, hcmd, hass, hlc, hmark] at h
            | false =>
              cases hra : w.removeAssignees with
              | error e' =>
                have he : e' = e := by
                  simpa [runUnassign, hv, hcmd, hass, hlc, hmark, hra] using h
                subst he
                simp [runUnassign, hv, hcmd, hass, hlc, hmark, hra]
              | ok v =>
                cases v
                cases hcc : w.createComment with
                | error e' =>
                  have he : e' = e := by
                    simpa [runUnassign, hv, hcmd, hass, hlc, hmark, hra, hcc] using h
                  subst he
                  simp [runUnassign, hv, hcmd, hass, hlc, hmark, hra, hcc]
                | ok v2 =>
                  exfalso
                  cases v2
                  simp [runUnassign, hv, hcmd, hass, hlc, hmark, hra, hcc] at h
  · -- bot author: normal return
    intro w pd hf hpr hbot
    cases hpp : w.payloadPullRequest with
    | some pd' =>
      have hpd : pd' = pd := by
        unfold prDataOf at hpr
        rw [hpp] at hpr
        exact Except.ok.inj hpr
      subst hpd
      simp [runNotifier, runNotifierWithPR, hf, hpp, hbot]
    | none =>
      have hpg : w.pullsGet = Except.ok pd := by
        unfold prDataOf at hpr
        rw [hpp] at hpr
        exact hpr
      simp [runNotifier, runNotifierWithPR, hf, hpp, hpg, hbot]
  · -- already commented: normal return
    intro w pd cs hf hpr hlc hmark
    cases hbot : notifierIsBot pd with
    | true =>
      cases hpp : w.payloadPullRequest with
      | some pd' =>
        have hpd : pd' = pd := by
          unfold prDataOf at hpr
          rw [hpp] at hpr
          exact Except.ok.inj hpr
        subst hpd
        simp [runNotifier, runNotifierWithPR, hf, hpp, hbot]
      | none =>
        have hpg : w.pullsGet = Except.ok pd := by
          unfold prDataOf at hpr
          rw [hpp] at hpr
          exact hpr
        simp [runNotifier, runNotifierWithPR, hf, hpp, hpg, hbot]
    | false =>
      cases hpp : w.payloadPullRequest with
      | some pd' =>
        have hpd : pd' = pd := by
          unfold prDataOf at hpr
          rw [hpp] at hpr
          exact Except.ok.inj hpr
        subst hpd
        simp [runNotifier, runNotifierWithPR, hf, hpp, hbot, hlc, hmark]
      | none =>
        have hpg : w.pullsGet = Except.ok pd := by
          unfold prDataOf at hpr
          rw [hpp] at hpr
          exact hpr
        simp [runNotifier, runNotifierWithPR, hf, hpp, hpg, hbot, hlc, hmark]
  · -- invalid context: normal return
    intro w h
    simp [runUnassign, h]
  · -- not an assignee: normal return
    intro w i login hi hl hass
    cases hv : isValidUnassignContext w.issue w.comment with
    | false => simp [runUnassign, hv]
    | true =>
      cases hcm : w.comment with
      | none =>
        exfalso
        rw [hcm] at hl
        simp at hl
      | some c =>
        rw [hcm] at hl
        simp only [Option.some_bind] at hl
        rw [hi, hcm] at hv
        cases hcmd : commentRequestsUnassign c.body with
        | false => simp [runUnassign, hi, hcm, hv, hcmd]
        | true => simp [runUnassign, hi, hcm, hv, hcmd, hl, hass]

/-- A notifier world whose `listComments` call fails. -/
def nwApiErr : NotifierWorld :=
  { dryRunEnv := none, envPrNumber := none, payloadPullRequest := some prPlain,
    repo := repo0, pullsGet := Except.error "unused",
    listComments := Except.error "boom", createComment := Except.ok () }

/-- An unassign world whose `removeAssignees` call fails. -/
def uwApiErr : UnassignWorld :=
  { issue := some unIssue, comment := some unMsg, repo := repo0,
    listComments := Except.ok [], removeAssignees := Except.error "kaput",
    createComment := Except.ok () }

/-- Witness for C8: failing API calls in each handler produce the
error-context log entries. -/
theorem handlers_error_propagation_witness :
    (∃ pn, NLog.errorCtx "boom" pn repo0 ∈ (runNotifier nwApiErr).logs) ∧
    ULog.errorCtx "kaput" (some 3) (some "alice") ∈ (runUnassign uwApiErr).logs :=
  ⟨handlers_error_propagation.1 nwApiErr "boom" rfl,
   handlers_error_propagation.2.1 uwApiErr "kaput" rfl⟩

end Bots
